import Mathlib

/-!
Shallow embedding of the Student CRUD API server (src/server.js) and its
proxy endpoint.  Each Express handler is embedded as a pure function from
the database state, the request data and the outcome of its single SQL
statement to a result record carrying the new database state, the HTTP
response, and the connection-lifecycle facts (whether a pooled connection
was acquired, how many SQL statements were issued, and whether the
connection was released).
-/

/-- A JSON-ish body field value as seen by the validation middleware:
a string, a number (the handlers only ever persist integers), or absent. -/
inductive JVal where
  | jstr (s : String)
  | jnum (n : Int)
  | jabsent
deriving Repr, DecidableEq

/-- The string coercion express-validator applies before running a
validator from validator.js: strings pass through, numbers print in
decimal, absent fields coerce to the empty string. -/
def JVal.toStr : JVal → String
  | .jstr s => s
  | .jnum n => toString n
  | .jabsent => ""

/-- Modelled after validator.js isInt with default options, as used by
the id path-parameter chains in src/server.js: an optional sign followed
by one or more decimal digits. -/
def isIntStr (s : String) : Bool :=
  let cs := s.data
  let ds :=
    match cs with
    | '+' :: rest => rest
    | '-' :: rest => rest
    | _ => cs
  !ds.isEmpty && ds.all (fun c => c.isDigit)

/-- Value of a decimal digit string (most significant first). -/
def digitsToNat (ds : List Char) : Nat :=
  ds.foldl (fun a c => a * 10 + (c.toNat - 48)) 0

/-- Integer denoted by an isIntStr-accepted string; this is the numeric
value the database binds the id parameter to. -/
def parseIntStr (s : String) : Int :=
  match s.data with
  | '-' :: rest => -(digitsToNat rest : Int)
  | '+' :: rest => (digitsToNat rest : Int)
  | cs => (digitsToNat cs : Int)

/-- Modelled from the spec: the email-syntax check of the external
express-validator/validator.js isEmail (library code, not in src/) — the
spec only requires that email "must match a valid email syntax".  One @
separating a non-empty local part from a non-empty domain that contains a
dot, does not start or end with a dot, and no whitespace or angle
brackets anywhere. -/
def isEmailStr (s : String) : Bool :=
  let cs := s.data
  let lp := cs.takeWhile (fun c => c != '@')
  let dp := (cs.dropWhile (fun c => c != '@')).drop 1
  (cs.count '@' == 1) && !lp.isEmpty && !dp.isEmpty &&
  dp.contains '.' && (dp.head? != some '.') && (dp.getLast? != some '.') &&
  cs.all (fun c => c != ' ' && c != '<' && c != '>')

/-- body('name').isString(): true exactly when the raw value is a string. -/
def isStringJ : JVal → Bool
  | .jstr _ => true
  | _ => false

/-- .notEmpty(): the coerced string is non-empty. -/
def notEmptyJ (v : JVal) : Bool := v.toStr != ""

/-- body('email').isEmail() on the coerced string. -/
def isEmailJ (v : JVal) : Bool := isEmailStr v.toStr

/-- body('age').isInt() on the coerced string. -/
def isIntJ (v : JVal) : Bool := isIntStr v.toStr

/-- The name field passes validation when it is a string and non-empty. -/
def nameValid (v : JVal) : Bool := isStringJ v && notEmptyJ v

/-- Integer the database stores for a bound parameter: numbers pass
through unmodified, integer strings are coerced by the column type. -/
def JVal.toIntVal : JVal → Int
  | .jnum n => n
  | .jstr s => parseIntStr s
  | .jabsent => 0

/-- Modelled from the spec: the external sanitize-html library (not in
src/); the spec describes it as stripping HTML markup from free-text
fields ("sanitized (HTML-stripped)").  A tag-stripping scan: outside a
tag every character except an opening angle bracket is kept; an opening
angle bracket switches to tag mode, where everything up to and including
the closing angle bracket is dropped. -/
def stripTags : Bool → List Char → List Char
  | _, [] => []
  | false, c :: cs => if c = '<' then stripTags true cs else c :: stripTags false cs
  | true, c :: cs => if c = '>' then stripTags false cs else stripTags true cs

/-- sanitizeHtml on a text value (see stripTags). -/
def sanitizeHtml (s : String) : String := ⟨stripTags false s.data⟩

/-- One row of the students table. -/
structure Student where
  id : Int
  name : String
  email : String
  age : Int
deriving Repr, DecidableEq

/-- The students table: its rows plus the next auto-increment id the
storage engine will assign on insert. -/
structure DB where
  rows : List Student
  nextId : Int
deriving Repr, DecidableEq

/-- One entry of the errors.array() payload of express-validator. -/
structure FieldError where
  field : String
  message : String
deriving Repr, DecidableEq

/-- Response payloads produced by the handlers in src/server.js. -/
inductive RespBody where
  | listOf (xs : List Student)
  | one (s : Student)
  | message (m : String)
  | createdMsg (m : String) (studentId : Int)
  | validationErrors (es : List FieldError)
  | serverError (m : String)
deriving Repr, DecidableEq

/-- An HTTP response: status code and JSON body. -/
structure Resp where
  status : Nat
  body : RespBody
deriving Repr, DecidableEq

/-- Result of running one handler: the database state afterwards, the
response sent, and the connection-lifecycle observations. -/
structure HResult where
  db : DB
  resp : Resp
  connAcquired : Bool
  queryCount : Nat
  connReleased : Bool
deriving Repr, DecidableEq

/-- The fields cited by a validation-error response (empty otherwise). -/
def Resp.errFields (r : Resp) : List String :=
  match r.body with
  | .validationErrors es => es.map (fun e => e.field)
  | _ => []

/-- param('id').isInt().withMessage(...) as attached to the get, patch
and delete routes. -/
def idErrors (idStr : String) : List FieldError :=
  if isIntStr idStr then [] else [⟨"id", "Student ID must be an integer"⟩]

/-- The errors contributed by body('name').isString().notEmpty()
.withMessage('Name is required'): each failing validator of the chain
contributes one entry (isString with the default message, notEmpty with
the attached one). -/
def nameErrors (v : JVal) : List FieldError :=
  (if isStringJ v then [] else [⟨"name", "Invalid value"⟩]) ++
  (if notEmptyJ v then [] else [⟨"name", "Name is required"⟩])

/-- Request body of POST /students. -/
structure CreateBody where
  name : JVal
  email : JVal
  age : JVal
deriving Repr, DecidableEq

/-- Request body of PATCH /students/:id. -/
structure PatchBody where
  email : JVal
deriving Repr, DecidableEq

/-- errors.array() of the POST /students validation chains, aggregated
across all three fields. -/
def createErrors (b : CreateBody) : List FieldError :=
  nameErrors b.name ++
  (if isEmailJ b.email then [] else [⟨"email", "Invalid email"⟩]) ++
  (if isIntJ b.age then [] else [⟨"age", "Age must be an integer"⟩])

/-- errors.array() of the PATCH /students/:id validation chains. -/
def patchErrors (idStr : String) (b : PatchBody) : List FieldError :=
  idErrors idStr ++
  (if isEmailJ b.email then [] else [⟨"email", "Invalid email"⟩])

/-- GET /students: acquires a connection, runs SELECT * FROM students;
on success releases the connection and responds 200 with the rows; if
the query throws, control jumps to the catch block, which responds 500
with the error message (qErr carries the thrown message, none meaning
the query succeeded). -/
def listStudents (db : DB) (qErr : Option String) : HResult :=
  match qErr with
  | some m => ⟨db, ⟨500, .serverError m⟩, true, 1, false⟩
  | none => ⟨db, ⟨200, .listOf db.rows⟩, true, 1, true⟩

/-- GET /students/:id: validation first (400 with errors.array() when the
id is not an integer, before any storage access); then one SELECT by id;
an empty result answers 200 with the not-found message payload. -/
def getStudent (db : DB) (idStr : String) (qErr : Option String) : HResult :=
  if (idErrors idStr).isEmpty then
    match qErr with
    | some m => ⟨db, ⟨500, .serverError m⟩, true, 1, false⟩
    | none =>
      match db.rows.find? (fun r => r.id == parseIntStr idStr) with
      | some s => ⟨db, ⟨200, .one s⟩, true, 1, true⟩
      | none => ⟨db, ⟨200, .message ("Student not found")⟩, true, 1, true⟩
  else ⟨db, ⟨400, .validationErrors (idErrors idStr)⟩, false, 0, false⟩

/-- POST /students: validation first; then one INSERT of the sanitized
name and email and the raw age; storage assigns the next auto-increment
id, returned as studentId in the 201 payload. -/
def createStudent (db : DB) (b : CreateBody) (qErr : Option String) : HResult :=
  if (createErrors b).isEmpty then
    match qErr with
    | some m => ⟨db, ⟨500, .serverError m⟩, true, 1, false⟩
    | none =>
      let row : Student :=
        ⟨db.nextId, sanitizeHtml b.name.toStr, sanitizeHtml b.email.toStr, b.age.toIntVal⟩
      ⟨⟨db.rows ++ [row], db.nextId + 1⟩,
       ⟨201, .createdMsg ("Student added successfully") db.nextId⟩, true, 1, true⟩
  else ⟨db, ⟨400, .validationErrors (createErrors b)⟩, false, 0, false⟩

/-- PATCH /students/:id: validation first; then one UPDATE setting email
to the sanitized body email on every row matching the id; responds with
a confirmation whether or not any row matched. -/
def updateEmail (db : DB) (idStr : String) (b : PatchBody) (qErr : Option String) : HResult :=
  if (patchErrors idStr b).isEmpty then
    match qErr with
    | some m => ⟨db, ⟨500, .serverError m⟩, true, 1, false⟩
    | none =>
      let i := parseIntStr idStr
      let sEmail := sanitizeHtml b.email.toStr
      ⟨⟨db.rows.map (fun r => if r.id == i then { r with email := sEmail } else r), db.nextId⟩,
       ⟨200, .message ("Student email updated successfully")⟩, true, 1, true⟩
  else ⟨db, ⟨400, .validationErrors (patchErrors idStr b)⟩, false, 0, false⟩

/-- DELETE /students/:id: validation first; then one DELETE by id;
responds with a confirmation whether or not any row matched. -/
def deleteStudent (db : DB) (idStr : String) (qErr : Option String) : HResult :=
  if (idErrors idStr).isEmpty then
    match qErr with
    | some m => ⟨db, ⟨500, .serverError m⟩, true, 1, false⟩
    | none =>
      ⟨⟨db.rows.filter (fun r => !(r.id == parseIntStr idStr)), db.nextId⟩,
       ⟨200, .message ("Student deleted successfully")⟩, true, 1, true⟩
  else ⟨db, ⟨400, .validationErrors (idErrors idStr)⟩, false, 0, false⟩

/-- GET /say: req.query.keyword || "nothing" — JavaScript's logical-or
takes the right operand when the left is absent or the empty string. -/
def sayKeyword (q : Option String) : String :=
  match q with
  | none => "nothing"
  | some s => if s = "" then "nothing" else s

/-- The fixed remote endpoint with the keyword appended as a query
parameter, exactly as the handler builds azureFunctionUrl. -/
def azureFunctionUrl (kw : String) : String :=
  "https://shashankhfunction123.azurewebsites.net/api/Function?keyword=" ++ kw

/-- The URL of the outbound call GET /say performs for a given request
(q is the keyword query parameter, none when absent). -/
def sayRemoteCall (q : Option String) : String := azureFunctionUrl (sayKeyword q)


/-! ## Theorems about the claims -/

/-- List.find? over an append skips a first segment in which nothing matches. -/
theorem find?_append_of_none {α : Type} (p : α → Bool) (l₁ l₂ : List α)
    (h : l₁.find? p = none) : (l₁ ++ l₂).find? p = l₂.find? p := by
  rw [List.find?_append, h, Option.none_or]

/-- Claim C1 — refuted by the code (code bug).  The claim states that every
one of the five student operations releases the pooled connection before
the response is sent on every exit path, including the path where the SQL
query itself fails.  In src/server.js conn.release() sits on the success
path only: when the query throws, control jumps to the catch block, which
sends the 500 response with the connection still unreleased.  This theorem
evaluates all five handlers at a failing query: each acquires the
connection, and none releases it. -/
theorem connection_leak_on_query_failure :
    (listStudents ⟨[], 1⟩ (some ("boom"))).connAcquired = true ∧
    (listStudents ⟨[], 1⟩ (some ("boom"))).connReleased = false ∧
    (listStudents ⟨[], 1⟩ (some ("boom"))).resp.status = 500 ∧
    (getStudent ⟨[], 1⟩ ("1") (some ("boom"))).connAcquired = true ∧
    (getStudent ⟨[], 1⟩ ("1") (some ("boom"))).connReleased = false ∧
    (createStudent ⟨[], 1⟩ ⟨JVal.jstr ("Ann"), JVal.jstr ("a@b.com"), JVal.jnum 20⟩ (some ("boom"))).connAcquired = true ∧
    (createStudent ⟨[], 1⟩ ⟨JVal.jstr ("Ann"), JVal.jstr ("a@b.com"), JVal.jnum 20⟩ (some ("boom"))).connReleased = false ∧
    (updateEmail ⟨[], 1⟩ ("1") ⟨JVal.jstr ("a@b.com")⟩ (some ("boom"))).connAcquired = true ∧
    (updateEmail ⟨[], 1⟩ ("1") ⟨JVal.jstr ("a@b.com")⟩ (some ("boom"))).connReleased = false ∧
    (deleteStudent ⟨[], 1⟩ ("1") (some ("boom"))).connAcquired = true ∧
    (deleteStudent ⟨[], 1⟩ ("1") (some ("boom"))).connReleased = false := by decide

/-- Claim C2: for every integer id with no matching row in the students
table, the get-by-id operation returns a successful 200 response whose
payload is the not-found message, not an HTTP error status. -/
theorem getStudent_notFound_success (db : DB) (idStr : String)
    (hv : isIntStr idStr = true)
    (hnone : ∀ r ∈ db.rows, r.id ≠ parseIntStr idStr) :
    (getStudent db idStr none).resp.status = 200 ∧
    (getStudent db idStr none).resp.body = RespBody.message ("Student not found") := by
  have hfind : db.rows.find? (fun r => r.id == parseIntStr idStr) = none := by
    rw [List.find?_eq_none]
    intro r hr
    simp only [beq_iff_eq]
    exact hnone r hr
  simp [getStudent, idErrors, hv, hfind]

/-- Claim C2, witness: get of id 5 against the empty table. -/
theorem getStudent_notFound_success_witness :
    isIntStr ("5") = true ∧
    ((getStudent ⟨[], 1⟩ ("5") none).resp.status = 200 ∧
     (getStudent ⟨[], 1⟩ ("5") none).resp.body = RespBody.message ("Student not found")) :=
  ⟨by decide, getStudent_notFound_success ⟨[], 1⟩ ("5") (by decide) (by simp)⟩

/-- Claim C3: for every id path value that is not an integer, each of
get-by-id, update-email and delete leaves the table untouched, never
acquires a connection or issues a storage call, and responds 400 with a
validation-error list citing the id field. -/
theorem nonIntegerId_rejected (db : DB) (idStr : String) (b : PatchBody)
    (qa qb qc : Option String) (h : isIntStr idStr = false) :
    (getStudent db idStr qa).db = db ∧ (getStudent db idStr qa).connAcquired = false ∧
    (getStudent db idStr qa).queryCount = 0 ∧ (getStudent db idStr qa).resp.status = 400 ∧
    ("id") ∈ (getStudent db idStr qa).resp.errFields ∧
    (updateEmail db idStr b qb).db = db ∧ (updateEmail db idStr b qb).connAcquired = false ∧
    (updateEmail db idStr b qb).queryCount = 0 ∧ (updateEmail db idStr b qb).resp.status = 400 ∧
    ("id") ∈ (updateEmail db idStr b qb).resp.errFields ∧
    (deleteStudent db idStr qc).db = db ∧ (deleteStudent db idStr qc).connAcquired = false ∧
    (deleteStudent db idStr qc).queryCount = 0 ∧ (deleteStudent db idStr qc).resp.status = 400 ∧
    ("id") ∈ (deleteStudent db idStr qc).resp.errFields := by
  simp [getStudent, updateEmail, deleteStudent, idErrors, patchErrors, Resp.errFields, h]

/-- Claim C3, witness: the non-integer id value abc is rejected with 400. -/
theorem nonIntegerId_rejected_witness :
    isIntStr ("abc") = false ∧ (getStudent ⟨[], 1⟩ ("abc") none).resp.status = 400 :=
  ⟨by decide,
   (nonIntegerId_rejected ⟨[], 1⟩ ("abc") ⟨JVal.jstr ("a@b.com")⟩ none none none (by decide)).2.2.2.1⟩

/-- Claim C4: for every create request in which any of the three field
constraints fails, the create operation leaves the table unchanged, never
acquires a connection or issues an insert, and returns a single 400
validation-error response whose cited fields are exactly the violated
ones, aggregated across all three fields. -/
theorem createStudent_validation (db : DB) (b : CreateBody) (q : Option String)
    (h : ¬(nameValid b.name = true ∧ isEmailJ b.email = true ∧ isIntJ b.age = true)) :
    (createStudent db b q).db = db ∧
    (createStudent db b q).connAcquired = false ∧
    (createStudent db b q).queryCount = 0 ∧
    (createStudent db b q).resp = ⟨400, RespBody.validationErrors (createErrors b)⟩ ∧
    ((("name") ∈ (createStudent db b q).resp.errFields) ↔ ¬nameValid b.name = true) ∧
    ((("email") ∈ (createStudent db b q).resp.errFields) ↔ ¬isEmailJ b.email = true) ∧
    ((("age") ∈ (createStudent db b q).resp.errFields) ↔ ¬isIntJ b.age = true) ∧
    ∀ f ∈ (createStudent db b q).resp.errFields, f = ("name") ∨ f = ("email") ∨ f = ("age") := by
  cases hs : isStringJ b.name <;> cases hn : notEmptyJ b.name <;>
    cases he : isEmailJ b.email <;> cases ha : isIntJ b.age <;>
    simp [nameValid, hs, hn, he, ha] at h ⊢ <;>
    simp [createStudent, createErrors, nameErrors, Resp.errFields, nameValid, hs, hn, he, ha]

/-- Claim C4, witness: a request violating all three constraints. -/
theorem createStudent_validation_witness :
    (createStudent ⟨[], 1⟩ ⟨JVal.jstr (""), JVal.jstr ("bad"), JVal.jstr ("x")⟩ none).resp
      = ⟨400, RespBody.validationErrors
          (createErrors ⟨JVal.jstr (""), JVal.jstr ("bad"), JVal.jstr ("x")⟩)⟩ :=
  (createStudent_validation ⟨[], 1⟩ ⟨JVal.jstr (""), JVal.jstr ("bad"), JVal.jstr ("x")⟩ none
    (by decide)).2.2.2.1

/-- Claim C5: round-trip — creating a Student from a valid body (string
non-empty name, valid email, integer age) and then getting it by the
returned id (any id path string denoting that id, with the storage
invariant that the auto-increment id is fresh) yields a 200 response with
a record whose email is the sanitized input email and whose age is the
input age exactly. -/
theorem create_then_get_roundtrip (db : DB) (b : CreateBody) (a : Int) (idStr : String)
    (hn : nameValid b.name = true) (he : isEmailJ b.email = true)
    (ha : isIntJ b.age = true) (hA : b.age = JVal.jnum a)
    (hfresh : ∀ r ∈ db.rows, r.id ≠ db.nextId)
    (hid : isIntStr idStr = true)
    (hrep : parseIntStr idStr = db.nextId) :
    ∃ st : Student,
      (createStudent db b none).resp
        = ⟨201, RespBody.createdMsg ("Student added successfully") db.nextId⟩ ∧
      (getStudent (createStudent db b none).db idStr none).resp = ⟨200, RespBody.one st⟩ ∧
      st.email = sanitizeHtml b.email.toStr ∧
      st.age = a := by
  rw [nameValid, Bool.and_eq_true] at hn
  obtain ⟨hs, hne⟩ := hn
  have hce : createErrors b = [] := by
    simp [createErrors, nameErrors, hs, hne, he, ha]
  have hc : createStudent db b none =
      ⟨⟨db.rows ++ [⟨db.nextId, sanitizeHtml b.name.toStr, sanitizeHtml b.email.toStr,
          b.age.toIntVal⟩], db.nextId + 1⟩,
       ⟨201, RespBody.createdMsg ("Student added successfully") db.nextId⟩, true, 1, true⟩ := by
    simp [createStudent, hce]
  have hf1 : db.rows.find? (fun r => r.id == parseIntStr idStr) = none := by
    rw [List.find?_eq_none]
    intro r hr
    simp only [beq_iff_eq, hrep]
    exact hfresh r hr
  refine ⟨⟨db.nextId, sanitizeHtml b.name.toStr, sanitizeHtml b.email.toStr, b.age.toIntVal⟩,
    ?_, ?_, rfl, ?_⟩
  · rw [hc]
  · have hfind : (db.rows ++
        [(⟨db.nextId, sanitizeHtml b.name.toStr, sanitizeHtml b.email.toStr,
           b.age.toIntVal⟩ : Student)]).find? (fun r => r.id == parseIntStr idStr)
        = some ⟨db.nextId, sanitizeHtml b.name.toStr, sanitizeHtml b.email.toStr,
           b.age.toIntVal⟩ := by
      rw [find?_append_of_none _ _ _ hf1]
      simp [List.find?_cons, hrep]
    rw [hc]
    simp [getStudent, idErrors, hid, hfind]
  · simp [hA, JVal.toIntVal]

/-- Claim C5, witness: the concrete round-trip of the spec scenario. -/
theorem create_then_get_roundtrip_witness :
    ∃ st : Student,
      (createStudent ⟨[], 1⟩ ⟨JVal.jstr ("Ann"), JVal.jstr ("ann@example.com"),
        JVal.jnum 30⟩ none).resp
        = ⟨201, RespBody.createdMsg ("Student added successfully") 1⟩ ∧
      (getStudent (createStudent ⟨[], 1⟩ ⟨JVal.jstr ("Ann"), JVal.jstr ("ann@example.com"),
        JVal.jnum 30⟩ none).db ("1") none).resp = ⟨200, RespBody.one st⟩ ∧
      st.email = sanitizeHtml (JVal.jstr ("ann@example.com")).toStr ∧
      st.age = 30 :=
  create_then_get_roundtrip ⟨[], 1⟩ ⟨JVal.jstr ("Ann"), JVal.jstr ("ann@example.com"),
    JVal.jnum 30⟩ 30 ("1") (by decide) (by decide) (by decide) rfl (by simp) (by decide)
    (by decide)

/-- Claim C6: for every integer id and syntactically valid email, the
update-email operation mutates at most the email field of the rows
matching the id — row count and nextId are preserved, every row keeps its
id, name and age, and every non-matching row is entirely unchanged. -/
theorem updateEmail_frame (db : DB) (idStr : String) (b : PatchBody)
    (hid : isIntStr idStr = true) (he : isEmailJ b.email = true) :
    (updateEmail db idStr b none).db.nextId = db.nextId ∧
    (updateEmail db idStr b none).db.rows.length = db.rows.length ∧
    ∀ (i : Nat) (h1 : i < db.rows.length)
      (h2 : i < (updateEmail db idStr b none).db.rows.length),
      ((updateEmail db idStr b none).db.rows.get ⟨i, h2⟩).id = (db.rows.get ⟨i, h1⟩).id ∧
      ((updateEmail db idStr b none).db.rows.get ⟨i, h2⟩).name = (db.rows.get ⟨i, h1⟩).name ∧
      ((updateEmail db idStr b none).db.rows.get ⟨i, h2⟩).age = (db.rows.get ⟨i, h1⟩).age ∧
      ((db.rows.get ⟨i, h1⟩).id ≠ parseIntStr idStr →
        (updateEmail db idStr b none).db.rows.get ⟨i, h2⟩ = db.rows.get ⟨i, h1⟩) := by
  have hres : (updateEmail db idStr b none).db =
      ⟨db.rows.map (fun r => if r.id == parseIntStr idStr
          then { r with email := sanitizeHtml b.email.toStr } else r), db.nextId⟩ := by
    simp [updateEmail, patchErrors, idErrors, hid, he]
  rw [hres]
  refine ⟨rfl, by simp, ?_⟩
  intro i h1 h2
  simp only [List.get_eq_getElem, List.getElem_map]
  by_cases hr : db.rows[i].id = parseIntStr idStr
  · simp [hr]
  · simp [hr]

/-- Claim C6, witness: updating the email of row 1 in a one-row table. -/
theorem updateEmail_frame_witness :
    isIntStr ("1") = true ∧ isEmailJ (JVal.jstr ("new@x.com")) = true ∧
    (updateEmail ⟨[⟨1, ("Ann"), ("a@a.com"), 20⟩], 2⟩ ("1")
      ⟨JVal.jstr ("new@x.com")⟩ none).db.nextId = 2 :=
  ⟨by decide, by decide,
   (updateEmail_frame ⟨[⟨1, ("Ann"), ("a@a.com"), 20⟩], 2⟩ ("1")
     ⟨JVal.jstr ("new@x.com")⟩ (by decide) (by decide)).1⟩

/-- The output of the tag-stripping scan never contains an opening angle
bracket. -/
theorem stripTags_no_lt (m : Bool) (cs : List Char) : '<' ∉ stripTags m cs := by
  induction cs generalizing m with
  | nil => cases m <;> simp [stripTags]
  | cons c cs ih =>
    cases m with
    | false =>
      by_cases hc : c = '<'
      · simpa [stripTags, hc] using ih true
      · simp only [stripTags, if_neg hc, List.mem_cons]
        rintro (h | h)
        · exact hc h.symm
        · exact ih false h
    | true =>
      by_cases hc : c = '>'
      · simpa [stripTags, hc] using ih false
      · simpa [stripTags, if_neg hc] using ih true

/-- The tag-stripping scan is the identity on text without an opening
angle bracket. -/
theorem stripTags_id_of_no_lt (cs : List Char) (h : '<' ∉ cs) : stripTags false cs = cs := by
  induction cs with
  | nil => simp [stripTags]
  | cons c cs ih =>
    simp only [List.mem_cons] at h
    push_neg at h
    obtain ⟨h1, h2⟩ := h
    rw [stripTags, if_neg (fun hc => h1 hc.symm)]
    rw [ih h2]

/-- Claim C7: sanitization is idempotent — applying the sanitization
function to an already-sanitized value yields the same value, for every
string. -/
theorem sanitizeHtml_idempotent (s : String) :
    sanitizeHtml (sanitizeHtml s) = sanitizeHtml s := by
  show (⟨stripTags false (stripTags false s.data)⟩ : String) = ⟨stripTags false s.data⟩
  rw [stripTags_id_of_no_lt _ (stripTags_no_lt false s.data)]

/-- Claim C8: a GET /say request with no keyword query parameter invokes
the remote endpoint with the keyword equal to the literal text nothing. -/
theorem say_defaults_to_nothing :
    sayKeyword none = ("nothing") ∧ sayRemoteCall none = azureFunctionUrl ("nothing") :=
  ⟨by decide, by decide⟩

/-- Claim C9: a GET /say request whose keyword parameter is present but
empty behaves exactly as if the parameter were absent — the remote call
is invoked with the keyword nothing, never with the empty string. -/
theorem say_empty_keyword_defaults :
    sayKeyword (some ("")) = ("nothing") ∧ sayRemoteCall (some ("")) = sayRemoteCall none :=
  ⟨by decide, by decide⟩

/-- Claim C10: the two read operations, list and get-by-id, leave the
students table completely unchanged for every starting state and every
request, whether validation passes or the query succeeds or fails. -/
theorem read_ops_preserve_table (db : DB) (idStr : String) (qa qb : Option String) :
    (listStudents db qa).db = db ∧ (getStudent db idStr qb).db = db := by
  constructor
  · cases qa <;> rfl
  · unfold getStudent
    split
    · split
      · rfl
      · split <;> rfl
    · rfl
